import Mathlib

/-!
# Verification of the asset-tracker-api price pipeline

Shallow embedding of the repository's data model and operations.

The repository contains two families of implementations:
* `src/index.js` — the plain variant (no cache, no zero guards in the metric
  helpers); embedded here with a `V1` suffix;
* `src/unnamed/part_000` (the `server.js` variant) — the cached variant with
  zero guards; embedded here under the source names.

Modelling conventions:
* JS numbers are modelled as exact rationals (`ℚ`); `Math.sqrt` lives in `ℝ`.
* A JS arithmetic step that produces a non-finite number (`Infinity`/`NaN`
  from division by zero) is modelled as `none` in an `Option` result.
* An upstream HTTP interaction is modelled by the parsed response value the
  adapter code inspects; a transport/parse failure (anything the `catch`
  block receives) is `Upstream.fail msg`.
* `Array.prototype.sort` is stable (ES2019), and a stable sort is uniquely
  determined by its comparator, so it is modelled by `List.insertionSort`.
-/

/-- One time-bucketed OHLCV record, as built by the adapters
(fields `timestamp, o, h, l, c, v` in the source). -/
structure Candle where
  timestamp : String
  o : ℚ
  h : ℚ
  l : ℚ
  c : ℚ
  v : ℚ
  deriving DecidableEq, Repr

/-- The normalized result every adapter returns:
`{ current_price, candles, error }`.  `current_price = none` models the JS
`null`/`undefined`; `error = none` models `error: null`. -/
structure PriceResult where
  current_price : Option ℚ
  candles : List Candle
  error : Option String
  deriving DecidableEq, Repr

/-! ## Metrics (src/index.js 15-27, src/unnamed/part_000 279-294) -/

/-- Embeds `calculateChange` from src/index.js lines 15-20.  There is no guard for
`prices[0] === 0`: JS then divides by zero and yields `Infinity` (or `NaN`
when the numerator is also 0), modelled as `none`. -/
def calculateChangeV1 (prices : List ℚ) : Option ℚ :=
  if prices.length < 2 then some 0
  else
    let first := prices.headI
    let last := prices.getLastD 0
    if first = 0 then none
    else some ((last - first) / first * 100)

/-- Embeds `calculateChange` from src/unnamed/part_000 lines 279-285, with the
`!first || first === 0` guard (for a rational `first` this is `first = 0`). -/
def calculateChange (prices : List ℚ) : ℚ :=
  if prices.length < 2 then 0
  else
    let first := prices.headI
    let last := prices.getLastD 0
    if first = 0 then 0
    else (last - first) / first * 100

/-- Embeds `prices.reduce((a, b) => a + b, 0)`. -/
def jsSum (prices : List ℚ) : ℚ := prices.foldl (fun a b => a + b) 0

/-- Embeds `prices.reduce((a, b) => a + Math.pow(b - mean, 2), 0)`. -/
def jsSqDevSum (prices : List ℚ) (mean : ℚ) : ℚ :=
  prices.foldl (fun a b => a + (b - mean) ^ 2) 0

/-- Embeds `calculateVolatility` from src/unnamed/part_000 lines 287-294, with the
`mean === 0` guard. -/
noncomputable def calculateVolatility (prices : List ℚ) : ℝ :=
  if prices.length < 2 then 0
  else
    let n : ℚ := prices.length
    let mean := jsSum prices / n
    if mean = 0 then 0
    else Real.sqrt ((jsSqDevSum prices mean / n : ℚ) : ℝ) / (mean : ℝ) * 100

/-- Embeds `calculateVolatility` from src/index.js lines 22-27.  There is no guard
for `mean === 0`: JS divides `Math.sqrt(variance) ≥ 0` by zero and yields
`Infinity` or `NaN`, modelled as `none`. -/
noncomputable def calculateVolatilityV1 (prices : List ℚ) : Option ℝ :=
  if prices.length < 2 then some 0
  else
    let n : ℚ := prices.length
    let mean := jsSum prices / n
    if mean = 0 then none
    else some (Real.sqrt ((jsSqDevSum prices mean / n : ℚ) : ℝ) / (mean : ℝ) * 100)

/-! Spec-side metric definitions (for the refinement parts of the claims). -/

/-- Arithmetic mean of a series, written from the spec's words. -/
def listMean (prices : List ℚ) : ℚ := prices.sum / prices.length

/-- Population variance of a series, written from the spec's words. -/
def popVariance (prices : List ℚ) : ℚ :=
  ((prices.map fun x => (x - listMean prices) ^ 2).sum) / prices.length

/-- Population standard deviation of a series, written from the spec's words. -/
noncomputable def popStdDev (prices : List ℚ) : ℝ :=
  Real.sqrt ((popVariance prices : ℚ) : ℝ)

/-! ## Upstream responses and adapters -/

/-- Result of one outbound request as seen by the adapter code: either the
parsed payload, or a failure caught by the adapter's `catch` block. -/
inductive Upstream (α : Type) where
  | fail (msg : String)
  | ok (data : α)

/-- One bar of the Yahoo chart response (`result.quotes[i]`).  `volume` is
`none` when the provider omits it (`q.volume || 0` then yields 0). -/
structure StockQuote where
  date : String
  openQ : ℚ
  highQ : ℚ
  lowQ : ℚ
  closeQ : ℚ
  volume : Option ℚ
  deriving DecidableEq, Repr

/-- The candle built from one Yahoo bar (both variants build the same record;
the timestamp formatting is kept as the raw date string). -/
def stockCandle (q : StockQuote) : Candle :=
  ⟨q.date, q.openQ, q.highQ, q.lowQ, q.closeQ, q.volume.getD 0⟩

/-- Embeds the `fetchStockPrice` body from src/unnamed/part_000 lines 306-341, as a
function of the upstream response (the caching wrapper is modelled
separately below). -/
def fetchStockPriceNorm (resp : Upstream (List StockQuote)) : PriceResult :=
  match resp with
  | .fail msg => ⟨none, [], some msg⟩
  | .ok quotes =>
    if quotes.isEmpty then ⟨none, [], some "No stock data"⟩
    else
      let candles := quotes.map stockCandle
      ⟨(candles.getLast?).map Candle.c, candles, none⟩

/-- Embeds `fetchStockPrice` from src/index.js lines 30-55.  An empty `quotes` array
passes the `!result.quotes` check (an empty array is truthy), and reading
`.close` of `quotes[-1]` then throws, landing in the `catch` block. -/
def fetchStockPriceV1 (resp : Upstream (List StockQuote)) : PriceResult :=
  match resp with
  | .fail msg => ⟨none, [], some msg⟩
  | .ok quotes =>
    match quotes.getLast? with
    | none => ⟨none, [], some "Cannot read properties of undefined"⟩
    | some lastQ => ⟨some lastQ.closeQ, quotes.map stockCandle, none⟩

/-- One row of the CoinGecko OHLC response: `[timestamp, open, high, low, close]`. -/
structure CryptoRow where
  ts : ℚ
  openQ : ℚ
  highQ : ℚ
  lowQ : ℚ
  closeQ : ℚ
  deriving DecidableEq, Repr

/-- The candle built from one CoinGecko row (volume is not provided, set 0). -/
def cryptoCandle (row : CryptoRow) : Candle :=
  ⟨toString row.ts, row.openQ, row.highQ, row.lowQ, row.closeQ, 0⟩

/-- CoinGecko day-count table `{'1h': 1, '1d': 1, '1w': 7}` shared by both
variants. -/
def cryptoDaysMap : List (String × ℕ) := [("1h", 1), ("1d", 1), ("1w", 7)]

/-- Day-count selection in src/index.js line 59: a plain object lookup,
`undefined` (`none`) for an unrecognized period — no fallback. -/
def cryptoDaysV1 (period : String) : Option ℕ := cryptoDaysMap.lookup period

/-- Day-count selection in src/unnamed/part_000 lines 350-351:
`daysMap[period] || 1` (every stored value is nonzero, hence truthy, so
`||` only converts a missing key to 1). -/
def cryptoDays (period : String) : ℕ := (cryptoDaysMap.lookup period).getD 1

/-- Embeds the `fetchCryptoPrice` body from src/unnamed/part_000 lines 343-385 as a
function of the upstream response. -/
def fetchCryptoPriceNorm (resp : Upstream (List CryptoRow)) : PriceResult :=
  match resp with
  | .fail msg => ⟨none, [], some msg⟩
  | .ok data =>
    if data.isEmpty then ⟨none, [], some "No crypto data"⟩
    else
      let candles := data.map cryptoCandle
      ⟨(candles.getLast?).map Candle.c, candles, none⟩

/-- Embeds `fetchCryptoPrice` from src/index.js lines 57-77 (empty data throws
`'No data'`, caught below; otherwise `current_price` is row `[4]` of the
last entry). -/
def fetchCryptoPriceV1 (resp : Upstream (List CryptoRow)) : PriceResult :=
  match resp with
  | .fail msg => ⟨none, [], some msg⟩
  | .ok data =>
    if data.isEmpty then ⟨none, [], some "No data"⟩
    else ⟨(data.getLast?).map CryptoRow.closeQ, data.map cryptoCandle, none⟩

/-- The `rates` object of the exchangerate.host response: a list of
`(date, maybe-rate-for-the-requested-symbol)` entries with distinct dates. -/
abbrev RatesObj := List (String × Option ℚ)

/-- JS `a || b` on two numbers (0 is falsy; no NaN arises at this site). -/
def jsOrQ (a b : ℚ) : ℚ := if a = 0 then b else a

/-- JS `a || b` where `a` may be `undefined` (a missing object key). -/
def jsOrOpt (a : Option ℚ) (b : ℚ) : ℚ :=
  match a with
  | none => b
  | some x => if x = 0 then b else x

/-- Embeds `list.map((x, i) => f(i, x))` — a structural index-carrying map. -/
def jsMapIdx {α β : Type} (f : ℕ → α → β) : List α → ℕ → List β
  | [], _ => []
  | a :: as, i => f i a :: jsMapIdx f as (i + 1)

/-- The forex candle construction shared by both variants
(src/index.js 91-98, src/unnamed/part_000 414-421):
`o = i === 0 ? close : closes[i-1] || close`, `h = l = c = close`, `v = 0`. -/
def forexCandles (dates : List String) (closes : List ℚ) : List Candle :=
  jsMapIdx
    (fun i close =>
      ⟨dates.getD i "",
       if i = 0 then close else jsOrQ (closes.getD (i - 1) 0) close,
       close, close, close, 0⟩)
    closes 0

/-- Date ordering used for `Object.keys(rates).sort()` (default JS sort is
lexicographic on strings). -/
def dateLe (p q : String × Option ℚ) : Prop := p.1 ≤ q.1

instance : DecidableRel dateLe := fun p q => inferInstanceAs (Decidable (p.1 ≤ q.1))

/-- Embeds the `fetchForexPrice` body from src/unnamed/part_000 lines 387-433 as a
function of the upstream response.  The source sorts the date keys and looks
each one up again; for distinct keys this equals sorting the entries by date. -/
def fetchForexPriceNorm (resp : Upstream (Option RatesObj)) : PriceResult :=
  match resp with
  | .fail msg => ⟨none, [], some msg⟩
  | .ok none => ⟨none, [], some "No forex rates"⟩
  | .ok (some ratesObj) =>
    if ratesObj.isEmpty then ⟨none, [], some "No forex rates"⟩
    else
      let sortedRates := List.insertionSort dateLe ratesObj
      let dates := sortedRates.map Prod.fst
      let closes := sortedRates.map fun p => jsOrOpt p.2 0
      ⟨closes.getLast?, forexCandles dates closes, none⟩

/-- Embeds `fetchForexPrice` from src/index.js lines 79-104.  Only the *absence* of
the `rates` field is checked (`!response.data.rates`); an empty `rates`
object passes the check, `closes` is then `[]`, `closes[-1]` is `undefined`
(no exception), and the function returns `error: null` with no candles. -/
def fetchForexPriceV1 (resp : Upstream (Option RatesObj)) : PriceResult :=
  match resp with
  | .fail msg => ⟨none, [], some msg⟩
  | .ok none => ⟨none, [], some "No rates data"⟩
  | .ok (some ratesObj) =>
    let closes := ratesObj.map fun p => jsOrOpt p.2 0
    ⟨closes.getLast?, forexCandles (ratesObj.map Prod.fst) closes, none⟩

/-! ## Cache (src/unnamed/part_000: NodeCache with stdTTL; `cache.get` /
`cache.set` around each adapter body).  The model covers one TTL window: a
present key is served, an absent key (never written, or already expired)
triggers the upstream call and is then written.  The third component of each
cached fetch counts the upstream calls it made (0 or 1). -/

abbrev Cache := List (String × PriceResult)

def cacheGet (c : Cache) (k : String) : Option PriceResult := c.lookup k

def cacheSet (c : Cache) (k : String) (v : PriceResult) : Cache := (k, v) :: c

/-- Embeds `fetchStockPrice` from src/unnamed/part_000 lines 306-341: cache lookup
under `stock:SYMBOL:PERIOD`, then the normalization body, storing the payload
on every path (success, empty data, and caught failure alike). -/
def fetchStockPrice (upstream : String → String → Upstream (List StockQuote))
    (c : Cache) (symbol period : String) : PriceResult × Cache × ℕ :=
  let key := "stock:" ++ symbol ++ ":" ++ period
  match cacheGet c key with
  | some cached => (cached, c, 0)
  | none =>
    let payload := fetchStockPriceNorm (upstream symbol period)
    (payload, cacheSet c key payload, 1)

/-- Embeds `fetchCryptoPrice` from src/unnamed/part_000 lines 343-385 (cache key
`crypto:SYMBOL:PERIOD`). -/
def fetchCryptoPrice (upstream : String → String → Upstream (List CryptoRow))
    (c : Cache) (symbol period : String) : PriceResult × Cache × ℕ :=
  let key := "crypto:" ++ symbol ++ ":" ++ period
  match cacheGet c key with
  | some cached => (cached, c, 0)
  | none =>
    let payload := fetchCryptoPriceNorm (upstream symbol period)
    (payload, cacheSet c key payload, 1)

/-- Embeds `fetchForexPrice` from src/unnamed/part_000 lines 387-433 (cache key
`forex:PAIR:PERIOD`). -/
def fetchForexPrice (upstream : String → String → Upstream (Option RatesObj))
    (c : Cache) (pair period : String) : PriceResult × Cache × ℕ :=
  let key := "forex:" ++ pair ++ ":" ++ period
  match cacheGet c key with
  | some cached => (cached, c, 0)
  | none =>
    let payload := fetchForexPriceNorm (upstream pair period)
    (payload, cacheSet c key payload, 1)

/-! ## Batch fetcher and ranking -/

/-- The batch projection of a successful fetch. -/
structure AssetQuote where
  symbol : String
  prices : List ℚ
  current_price : Option ℚ
  deriving DecidableEq, Repr

def STOCK_SYMBOLS : List String :=
  ["AAPL", "MSFT", "GOOGL", "TSLA", "AMZN", "NVDA", "META", "BRK-B", "JPM", "V"]

def CRYPTO_SYMBOLS : List String :=
  ["bitcoin", "ethereum", "binancecoin", "ripple", "cardano", "solana",
   "dogecoin", "tron", "avalanche-2", "shiba-inu"]

def FOREX_PAIRS : List String :=
  ["EURUSD", "GBPUSD", "USDJPY", "USDCHF", "AUDUSD", "USDCAD", "NZDUSD", "USDZAR"]

/-- Embeds the universe table lookup (same table in
both variants). -/
def symbolsFor (assetType : String) : List String :=
  if assetType = "stocks" then STOCK_SYMBOLS
  else if assetType = "crypto" then CRYPTO_SYMBOLS
  else if assetType = "forex" then FOREX_PAIRS
  else []

/-- Embeds `fetchTopAssets(assetType, limit, period)` (src/index.js 106-130,
src/unnamed/part_000 436-477).  The per-symbol adapter behavior is abstracted
as `fetch : symbol → period → PriceResult` (both variants issue exactly one
adapter call per batch symbol; per-symbol failures are filtered out, never
propagated).  Returns the collected `AssetQuote`s and the number of adapter
calls issued. -/
def fetchTopAssets (fetch : String → String → PriceResult)
    (assetType : String) (limit : ℕ) (period : String) :
    List AssetQuote × ℕ :=
  let symbols := symbolsFor assetType
  let batchSymbols := symbols.take (min (limit * 3) symbols.length)
  (batchSymbols.filterMap fun sym =>
    let data := fetch sym period
    if data.error = none ∧ data.candles ≠ [] then
      some ⟨sym, data.candles.map Candle.c, data.current_price⟩
    else none,
   batchSymbols.length)

/-- An `AssetQuote` with the attached `pct_change` metric. -/
structure RankedAsset where
  symbol : String
  prices : List ℚ
  current_price : Option ℚ
  pct_change : ℚ
  deriving DecidableEq, Repr

/-- Embeds `d => ({...d, pct_change: calculateChange(d.prices)})` from
src/unnamed/part_000 line 482, whose `calculateChange` is the guarded one
(always a finite number).  The src/index.js variant attaches the *unguarded*
metric, which yields a non-finite number on a zero-first series: see
`attachChangeV1`. -/
def attachChange (d : AssetQuote) : RankedAsset :=
  ⟨d.symbol, d.prices, d.current_price, calculateChange d.prices⟩

/-- An `AssetQuote` with the metric attached by the src/index.js variant:
`pct_change = none` models the non-finite JS number (`Infinity`/`NaN`) that
its unguarded `calculateChange` produces on a zero-first series. -/
structure RankedAssetV1 where
  symbol : String
  prices : List ℚ
  current_price : Option ℚ
  pct_change : Option ℚ
  deriving DecidableEq, Repr

/-- Embeds `d => ({...d, pct_change: calculateChange(d.prices)})` from
src/index.js line 135, whose `calculateChange` has no `first == 0` guard. -/
def attachChangeV1 (d : AssetQuote) : RankedAssetV1 :=
  ⟨d.symbol, d.prices, d.current_price, calculateChangeV1 d.prices⟩

/-- The embedding of a finite ranked record into the src/index.js record
type (a plain `some` on the metric). -/
def someRanked (r : RankedAsset) : RankedAssetV1 :=
  ⟨r.symbol, r.prices, r.current_price, some r.pct_change⟩

/-- Order produced by the comparator `(a, b) => b.pct_change - a.pct_change`
(descending by `pct_change`). -/
def gainersRel (a b : RankedAsset) : Prop := b.pct_change ≤ a.pct_change

/-- Order produced by the comparator `(a, b) => a.pct_change - b.pct_change`
(ascending by `pct_change`). -/
def losersRel (a b : RankedAsset) : Prop := a.pct_change ≤ b.pct_change

instance : DecidableRel gainersRel :=
  fun a b => inferInstanceAs (Decidable (b.pct_change ≤ a.pct_change))

instance : DecidableRel losersRel :=
  fun a b => inferInstanceAs (Decidable (a.pct_change ≤ b.pct_change))

instance : IsTotal RankedAsset gainersRel :=
  ⟨fun a b => le_total b.pct_change a.pct_change⟩

instance : IsTrans RankedAsset gainersRel :=
  ⟨fun _ _ _ h1 h2 => le_trans h2 h1⟩

instance : IsTotal RankedAsset losersRel :=
  ⟨fun a b => le_total a.pct_change b.pct_change⟩

instance : IsTrans RankedAsset losersRel :=
  ⟨fun _ _ _ h1 h2 => le_trans h1 h2⟩

/-- Embeds `getGainers` from src/unnamed/part_000 lines 480-485: attach the
guarded `pct_change`, stable-sort descending, take the first `limit`.  The
src/index.js version (lines 133-138) attaches the unguarded metric instead;
it is modelled (via `attachChangeV1`) only on inputs where that metric stays
finite, because a `NaN` comparator result makes the JS sort order
implementation-defined. -/
def getGainers (data : List AssetQuote) (limit : ℕ) : List RankedAsset :=
  (List.insertionSort gainersRel (data.map attachChange)).take limit

/-- Embeds `getLosers` from src/unnamed/part_000 lines 486-491 (the guarded
metric, ascending); the src/index.js version (lines 140-145) differs exactly
as `getGainers` does. -/
def getLosers (data : List AssetQuote) (limit : ℕ) : List RankedAsset :=
  (List.insertionSort losersRel (data.map attachChange)).take limit

/-- The spread `({...d, pct_change: calculateChange(d.prices)})` of
src/unnamed/part_000 line 482 applied to a record that already carries a
`pct_change` field: it simply overwrites it with the guarded metric. -/
def reattachChange (d : RankedAsset) : RankedAsset :=
  { d with pct_change := calculateChange d.prices }

/-- Embeds `getGainers` of src/unnamed/part_000 (lines 480-485) applied to an
already-ranked list: JS is duck-typed, so the same source function accepts
its own output; the only difference visible in the types is that the spread
overwrites `pct_change`. -/
def getGainersOnRanked (data : List RankedAsset) (limit : ℕ) : List RankedAsset :=
  (List.insertionSort gainersRel (data.map reattachChange)).take limit

/-- An `AssetQuote` with the attached `volatility_pct` metric. -/
structure StableAsset where
  symbol : String
  prices : List ℚ
  current_price : Option ℚ
  volatility_pct : ℝ

/-- Embeds `d => ({...d, volatility_pct: calculateVolatility(d.prices)})`. -/
noncomputable def attachVolatility (d : AssetQuote) : StableAsset :=
  ⟨d.symbol, d.prices, d.current_price, calculateVolatility d.prices⟩

/-- Ascending order by `volatility_pct`. -/
def stableRel (a b : StableAsset) : Prop := a.volatility_pct ≤ b.volatility_pct

noncomputable instance : DecidableRel stableRel :=
  fun a b => Real.decidableLE a.volatility_pct b.volatility_pct

/-- Embeds `getStable` (src/index.js 147-153, src/unnamed/part_000 492-498):
attach `volatility_pct`, keep entries below the threshold, stable-sort
ascending, take the first `limit`. -/
noncomputable def getStable (data : List AssetQuote) (limit : ℕ)
    (volThreshold : ℝ) : List StableAsset :=
  (List.insertionSort stableRel
    ((data.map attachVolatility).filter
      fun d => decide (d.volatility_pct < volThreshold))).take limit

/-! ## HTTP endpoints (validation and dispatch only; the framework wiring is
out of scope).  Query parameters arrive pre-parsed: `none` models an absent
or non-numeric parameter (JS `parseInt`/`parseFloat` yield `NaN` there). -/

def validPeriods : List String := ["1h", "1d", "1w"]

def stableValidPeriods : List String := ["1d", "1w"]

/-- Embeds `Math.min(Math.max(parseInt(req.query.limit) || 10, 1), 50)`.
`NaN` and `0` are falsy, so both fall back to 10. -/
def clampLimit (limitQ : Option ℤ) : ℕ :=
  let v : ℤ :=
    match limitQ with
    | none => 10
    | some n => if n = 0 then 10 else n
  (min (max v 1) 50).toNat

/-- Embeds `Math.min(Math.max(parseFloat(req.query.vol_threshold) || 2.0, 0), 50)`. -/
def clampVolThreshold (volQ : Option ℚ) : ℚ :=
  let v : ℚ :=
    match volQ with
    | none => 2
    | some x => if x = 0 then 2 else x
  min (max v 0) 50

/-- Response of the single-symbol price endpoint: HTTP status, number of
adapter calls made while handling the request, and the JSON body when one is
produced from a `PriceResult`. -/
structure PriceResponse where
  status : ℕ
  upstreamCalls : ℕ
  body : Option PriceResult
  deriving DecidableEq, Repr

/-- Embeds `GET /api/v1/price/:asset_type/:symbol` (src/index.js 158-171,
src/unnamed/part_000 503-516; both variants validate identically):
period must be one of `1h`,`1d`,`1w` (default `1d`), then dispatch on
`asset_type`, 404 when the adapter reports an error. -/
def priceEndpoint (fetchS fetchC fetchF : String → String → PriceResult)
    (asset_type symbol : String) (periodQ : Option String) : PriceResponse :=
  let period := periodQ.getD "1d"
  if period ∉ validPeriods then ⟨400, 0, none⟩
  else if asset_type = "stocks" then
    let result := fetchS symbol.toUpper period
    ⟨if result.error = none then 200 else 404, 1, some result⟩
  else if asset_type = "crypto" then
    let result := fetchC symbol.toLower period
    ⟨if result.error = none then 200 else 404, 1, some result⟩
  else if asset_type = "forex" then
    let result := fetchF symbol.toUpper period
    ⟨if result.error = none then 200 else 404, 1, some result⟩
  else ⟨400, 0, none⟩

/-- Response of the gainers/losers ranking endpoints. -/
structure RankResponse where
  status : ℕ
  upstreamCalls : ℕ
  items : List RankedAsset
  total_fetched : ℕ
  deriving DecidableEq, Repr

/-- Embeds `GET /api/v1/gainers/:asset_type` from src/unnamed/part_000 lines
518-526: clamp `limit`, validate `timeframe` (default `1d`), then
`fetchTopAssets(asset_type, limit, timeframe)` and `getGainers(data, limit)`. -/
def gainersEndpoint (fetch : String → String → PriceResult)
    (asset_type : String) (limitQ : Option ℤ) (timeframeQ : Option String) :
    RankResponse :=
  let limit := clampLimit limitQ
  let timeframe := timeframeQ.getD "1d"
  if timeframe ∉ validPeriods then ⟨400, 0, [], 0⟩
  else
    let r := fetchTopAssets fetch asset_type limit timeframe
    ⟨200, r.2, getGainers r.1 limit, r.1.length⟩

/-- Embeds `GET /api/v1/gainers/:asset_type` from src/index.js lines 173-182: same
validation, but the handler passes `limit * 3` to `fetchTopAssets` (which
multiplies by 3 again internally). -/
def gainersEndpointV1 (fetch : String → String → PriceResult)
    (asset_type : String) (limitQ : Option ℤ) (timeframeQ : Option String) :
    RankResponse :=
  let limit := clampLimit limitQ
  let timeframe := timeframeQ.getD "1d"
  if timeframe ∉ validPeriods then ⟨400, 0, [], 0⟩
  else
    let r := fetchTopAssets fetch asset_type (limit * 3) timeframe
    ⟨200, r.2, getGainers r.1 limit, r.1.length⟩

/-- Embeds `GET /api/v1/losers/:asset_type` from src/unnamed/part_000 lines 528-536. -/
def losersEndpoint (fetch : String → String → PriceResult)
    (asset_type : String) (limitQ : Option ℤ) (timeframeQ : Option String) :
    RankResponse :=
  let limit := clampLimit limitQ
  let timeframe := timeframeQ.getD "1d"
  if timeframe ∉ validPeriods then ⟨400, 0, [], 0⟩
  else
    let r := fetchTopAssets fetch asset_type limit timeframe
    ⟨200, r.2, getLosers r.1 limit, r.1.length⟩

/-- Embeds `GET /api/v1/losers/:asset_type` from src/index.js lines 184-193
(passes `limit * 3` like its gainers sibling). -/
def losersEndpointV1 (fetch : String → String → PriceResult)
    (asset_type : String) (limitQ : Option ℤ) (timeframeQ : Option String) :
    RankResponse :=
  let limit := clampLimit limitQ
  let timeframe := timeframeQ.getD "1d"
  if timeframe ∉ validPeriods then ⟨400, 0, [], 0⟩
  else
    let r := fetchTopAssets fetch asset_type (limit * 3) timeframe
    ⟨200, r.2, getLosers r.1 limit, r.1.length⟩

/-- Response of the stable ranking endpoint. -/
structure StableResponse where
  status : ℕ
  upstreamCalls : ℕ
  items : List StableAsset
  total_fetched : ℕ

/-- Embeds `GET /api/v1/stable/:asset_type` from src/unnamed/part_000 lines 538-547:
`timeframe` must be `1d` or `1w` (default `1w`); `vol_threshold` clamped to
`[0, 50]` with default 2.0; `fetchTopAssets` receives the clamped limit. -/
noncomputable def stableEndpoint (fetch : String → String → PriceResult)
    (asset_type : String) (limitQ : Option ℤ) (volQ : Option ℚ)
    (timeframeQ : Option String) : StableResponse :=
  let limit := clampLimit limitQ
  let vol_threshold := clampVolThreshold volQ
  let timeframe := timeframeQ.getD "1w"
  if timeframe ∉ stableValidPeriods then ⟨400, 0, [], 0⟩
  else
    let r := fetchTopAssets fetch asset_type limit timeframe
    ⟨200, r.2, getStable r.1 limit ((vol_threshold : ℚ) : ℝ), r.1.length⟩

/-- Embeds `GET /api/v1/stable/:asset_type` from src/index.js lines 195-205:
same validation and clamping, but the handler passes `limit * 3` to
`fetchTopAssets` (which multiplies by 3 again). -/
noncomputable def stableEndpointV1 (fetch : String → String → PriceResult)
    (asset_type : String) (limitQ : Option ℤ) (volQ : Option ℚ)
    (timeframeQ : Option String) : StableResponse :=
  let limit := clampLimit limitQ
  let vol_threshold := clampVolThreshold volQ
  let timeframe := timeframeQ.getD "1w"
  if timeframe ∉ stableValidPeriods then ⟨400, 0, [], 0⟩
  else
    let r := fetchTopAssets fetch asset_type (limit * 3) timeframe
    ⟨200, r.2, getStable r.1 limit ((vol_threshold : ℚ) : ℝ), r.1.length⟩

/-- Embeds `fetchStockPrice` of src/index.js lines 30-55 together with its
upstream-call count: this variant has *no cache* — the body unconditionally
awaits one `yahooFinance.chart` request per invocation. -/
def fetchStockPriceV1Run (upstream : String → String → Upstream (List StockQuote))
    (symbol period : String) : PriceResult × ℕ :=
  (fetchStockPriceV1 (upstream symbol period), 1)

/-- Embeds `fetchCryptoPrice` of src/index.js lines 57-77 with its
upstream-call count (no cache: one request per invocation). -/
def fetchCryptoPriceV1Run (upstream : String → String → Upstream (List CryptoRow))
    (symbol period : String) : PriceResult × ℕ :=
  (fetchCryptoPriceV1 (upstream symbol period), 1)

/-- Embeds `fetchForexPrice` of src/index.js lines 79-104 with its
upstream-call count (no cache: one request per invocation). -/
def fetchForexPriceV1Run (upstream : String → String → Upstream (Option RatesObj))
    (pair period : String) : PriceResult × ℕ :=
  (fetchForexPriceV1 (upstream pair period), 1)

/-! ## Helper lemmas -/

lemma foldl_add_map (f : ℚ → ℚ) (l : List ℚ) (c : ℚ) :
    l.foldl (fun a b => a + f b) c = c + (l.map f).sum := by
  induction l generalizing c with
  | nil => simp
  | cons a as ih => simp [ih, add_assoc]

lemma jsSum_eq_sum (l : List ℚ) : jsSum l = l.sum := by
  have h := foldl_add_map (fun b => b) l 0
  simpa [jsSum] using h

lemma jsSqDevSum_eq (l : List ℚ) (m : ℚ) :
    jsSqDevSum l m = (l.map fun x => (x - m) ^ 2).sum := by
  have h := foldl_add_map (fun b => (b - m) ^ 2) l 0
  simpa [jsSqDevSum] using h

/-! ## C2 — percent change -/

/-- C2 (counterexample): the claim includes `percentChange([0, 5]) == 0`, but
`calculateChange` in src/index.js has no `first == 0` guard: on `[0, 5]` it
divides by zero and JS yields `Infinity` (a non-finite number, modelled as
`none`), not `0`. -/
theorem calculateChange_v1_zero_first_cex : calculateChangeV1 [0, 5] = none := by
  decide

/-- C2 (amended): `calculateChange` of the cached variant
(src/unnamed/part_000) equals `(last − first) / first × 100`, and returns 0
on series of fewer than 2 points and on series whose first element is 0; in
particular `[0,5] ↦ 0`, `[100,110] ↦ 10`, `[100,90] ↦ −10`.  The src/index.js
variant satisfies the same formula and the length guard, but on a series with
`first = 0` it produces a non-finite number instead of 0. -/
theorem calculateChange_spec :
    (∀ l : List ℚ, l.length < 2 → calculateChange l = 0) ∧
    (∀ l : List ℚ, 2 ≤ l.length → l.headI = 0 → calculateChange l = 0) ∧
    (∀ l : List ℚ, 2 ≤ l.length → l.headI ≠ 0 →
      calculateChange l = (l.getLastD 0 - l.headI) / l.headI * 100) ∧
    (calculateChange [100, 110] = 10 ∧ calculateChange [100, 90] = -10 ∧
      calculateChange [0, 5] = 0 ∧ calculateChange [] = 0 ∧
      calculateChange [(7 : ℚ)] = 0) ∧
    (∀ l : List ℚ, l.length < 2 → calculateChangeV1 l = some 0) ∧
    (∀ l : List ℚ, 2 ≤ l.length → l.headI ≠ 0 →
      calculateChangeV1 l = some ((l.getLastD 0 - l.headI) / l.headI * 100)) := by
  refine ⟨?_, ?_, ?_, ⟨?_, ?_, ?_, ?_, ?_⟩, ?_, ?_⟩
  · intro l h; simp [calculateChange, h]
  · intro l h h0; simp [calculateChange, Nat.not_lt.mpr h, h0]
  · intro l h h0; simp [calculateChange, Nat.not_lt.mpr h, h0]
  · norm_num [calculateChange]
  · norm_num [calculateChange]
  · norm_num [calculateChange]
  · norm_num [calculateChange]
  · norm_num [calculateChange]
  · intro l h; simp [calculateChangeV1, h]
  · intro l h h0; simp [calculateChangeV1, Nat.not_lt.mpr h, h0]

/-- C2 (witness): the amended theorem applied at concrete inputs. -/
theorem calculateChange_spec_witness :
    calculateChange [(3 : ℚ)] = 0 ∧ calculateChange [0, 9] = 0 ∧
    calculateChange [50, 60] =
      (([50, 60] : List ℚ).getLastD 0 - ([50, 60] : List ℚ).headI) /
        ([50, 60] : List ℚ).headI * 100 ∧
    calculateChangeV1 [(3 : ℚ)] = some 0 ∧
    calculateChangeV1 [50, 60] =
      some ((([50, 60] : List ℚ).getLastD 0 - ([50, 60] : List ℚ).headI) /
        ([50, 60] : List ℚ).headI * 100) :=
  ⟨calculateChange_spec.1 [3] (by norm_num),
   calculateChange_spec.2.1 [0, 9] (by norm_num) (by norm_num),
   calculateChange_spec.2.2.1 [50, 60] (by norm_num) (by norm_num),
   calculateChange_spec.2.2.2.2.1 [3] (by norm_num),
   calculateChange_spec.2.2.2.2.2 [50, 60] (by norm_num) (by norm_num)⟩

/-! ## C3 — volatility -/

/-- C3 (counterexample): the claim says volatility is 0 when the mean is 0,
but `calculateVolatility` in src/index.js has no `mean === 0` guard: on
`[1, -1]` (mean 0, variance 1) JS computes `sqrt(1)/0 = Infinity` (modelled
as `none`), not 0. -/
theorem calculateVolatility_v1_zero_mean_cex : calculateVolatilityV1 [1, -1] = none := by
  norm_num [calculateVolatilityV1, jsSum]


lemma calcVol_small (l : List ℚ) (h : l.length < 2) : calculateVolatility l = 0 := by
  simp [calculateVolatility, h]

lemma calcVol_zero_mean (l : List ℚ) (h : 2 ≤ l.length) (h0 : listMean l = 0) :
    calculateVolatility l = 0 := by
  have hm : jsSum l / (l.length : ℚ) = listMean l := by rw [jsSum_eq_sum]; rfl
  simp only [calculateVolatility, Nat.not_lt.mpr h, if_false, hm, h0, if_true]

lemma calcVol_eq (l : List ℚ) (h : 2 ≤ l.length) (h0 : listMean l ≠ 0) :
    calculateVolatility l = popStdDev l / (listMean l : ℝ) * 100 := by
  have hm : jsSum l / (l.length : ℚ) = listMean l := by rw [jsSum_eq_sum]; rfl
  have hv : jsSqDevSum l (listMean l) / (l.length : ℚ) = popVariance l := by
    rw [jsSqDevSum_eq]; rfl
  simp only [calculateVolatility, Nat.not_lt.mpr h, if_false, hm, if_neg h0]
  rw [popStdDev, ← hv]

lemma calcVol_v1_zero_mean (l : List ℚ) (h : 2 ≤ l.length) (h0 : listMean l = 0) :
    calculateVolatilityV1 l = none := by
  have hm : jsSum l / (l.length : ℚ) = listMean l := by rw [jsSum_eq_sum]; rfl
  simp only [calculateVolatilityV1, Nat.not_lt.mpr h, if_false, hm, h0, if_true]

lemma calcVol_replicate (x : ℚ) (hx : x ≠ 0) (n : ℕ) (hn : 2 ≤ n) :
    calculateVolatility (List.replicate n x) = 0 := by
  have hn0 : (n : ℚ) ≠ 0 := by
    have : 0 < n := by omega
    exact_mod_cast this.ne'
  have hmean : listMean (List.replicate n x) = x := by
    rw [listMean, List.sum_replicate, nsmul_eq_mul, List.length_replicate]
    field_simp
  have hlen : 2 ≤ (List.replicate n x).length := by
    rw [List.length_replicate]; exact hn
  have hm0 : listMean (List.replicate n x) ≠ 0 := by rw [hmean]; exact hx
  rw [calcVol_eq _ hlen hm0, hmean]
  have hvar : popVariance (List.replicate n x) = 0 := by
    rw [popVariance, hmean]
    simp
  rw [popStdDev, hvar]
  simp

lemma calcVol_90_100_110 :
    calculateVolatility [90, 100, 110] = Real.sqrt (((200 : ℚ) / 3 : ℚ) : ℝ) := by
  have h1 : listMean [90, 100, 110] = 100 := by norm_num [listMean]
  have hv : popVariance [90, 100, 110] = 200 / 3 := by norm_num [popVariance, listMean]
  rw [calcVol_eq _ (by norm_num) (by rw [h1]; norm_num), h1, popStdDev, hv]
  push_cast
  rw [div_mul_cancel₀]
  norm_num

/-- C3 (amended): `calculateVolatility` of the cached variant
(src/unnamed/part_000) equals the population standard deviation divided by
the mean, times 100, and returns 0 on fewer than 2 points or zero mean;
any constant non-zero series gives 0, and `[90,100,110]` gives a value in
`(8.164, 8.166)` (≈ 8.165).  The src/index.js variant has no zero-mean
guard and produces a non-finite number on a zero-mean series. -/
theorem calculateVolatility_spec :
    (∀ l : List ℚ, l.length < 2 → calculateVolatility l = 0) ∧
    (∀ l : List ℚ, 2 ≤ l.length → listMean l = 0 → calculateVolatility l = 0) ∧
    (∀ l : List ℚ, 2 ≤ l.length → listMean l ≠ 0 →
      calculateVolatility l = popStdDev l / (listMean l : ℝ) * 100) ∧
    (∀ x : ℚ, x ≠ 0 → ∀ n : ℕ, 2 ≤ n →
      calculateVolatility (List.replicate n x) = 0) ∧
    (8164 / 1000 < calculateVolatility [90, 100, 110] ∧
      calculateVolatility [90, 100, 110] < 8166 / 1000) ∧
    (∀ l : List ℚ, 2 ≤ l.length → listMean l = 0 → calculateVolatilityV1 l = none) := by
  refine ⟨calcVol_small, calcVol_zero_mean, calcVol_eq,
    fun x hx n hn => calcVol_replicate x hx n hn, ⟨?_, ?_⟩, calcVol_v1_zero_mean⟩
  · rw [calcVol_90_100_110]
    have hc : (((200 : ℚ) / 3 : ℚ) : ℝ) = 200 / 3 := by push_cast; ring
    rw [hc, show (8164 : ℝ) / 1000 < Real.sqrt (200 / 3) ↔
      ((8164 : ℝ) / 1000) ^ 2 < 200 / 3 from Real.lt_sqrt (by norm_num)]
    norm_num
  · rw [calcVol_90_100_110]
    have hc : (((200 : ℚ) / 3 : ℚ) : ℝ) = 200 / 3 := by push_cast; ring
    rw [hc, show Real.sqrt (200 / 3) < (8166 : ℝ) / 1000 ↔
      (200 : ℝ) / 3 < ((8166 : ℝ) / 1000) ^ 2 from Real.sqrt_lt' (by norm_num)]
    norm_num

/-- C3 (witness): the amended theorem applied at concrete inputs. -/
theorem calculateVolatility_spec_witness :
    calculateVolatility [(4 : ℚ)] = 0 ∧
    calculateVolatility [2, -2] = 0 ∧
    calculateVolatility (List.replicate 4 (100 : ℚ)) = 0 ∧
    calculateVolatilityV1 [2, -2] = none :=
  ⟨calculateVolatility_spec.1 [4] (by norm_num),
   calculateVolatility_spec.2.1 [2, -2] (by norm_num) (by norm_num [listMean]),
   calculateVolatility_spec.2.2.2.1 100 (by norm_num) 4 (by norm_num),
   calculateVolatility_spec.2.2.2.2.2 [2, -2] (by norm_num) (by norm_num [listMean])⟩

/-! ## C7 — crypto period mapper -/

/-- C7 (counterexample): the claim says an unrecognized period falls back to
a day-count of 1, but in src/index.js the day-count is a plain object lookup
with no fallback: on period `"2d"` it is `undefined` (`none`), and the
request URL is built with `days=undefined`. -/
theorem cryptoDays_v1_no_fallback_cex : cryptoDaysV1 "2d" = none := by decide

/-- C7 (amended): the crypto period mapper maps `1h ↦ 1`, `1d ↦ 1`, `1w ↦ 7`
in both variants; the cached variant (src/unnamed/part_000) falls back to 1
on every unrecognized period, while the src/index.js variant yields no
day-count at all (`undefined`) there. -/
theorem cryptoDays_spec :
    (cryptoDays "1h" = 1 ∧ cryptoDays "1d" = 1 ∧ cryptoDays "1w" = 7) ∧
    (cryptoDaysV1 "1h" = some 1 ∧ cryptoDaysV1 "1d" = some 1 ∧
      cryptoDaysV1 "1w" = some 7) ∧
    (∀ p : String, p ∉ ["1h", "1d", "1w"] → cryptoDays p = 1) ∧
    (∀ p : String, p ∉ ["1h", "1d", "1w"] → cryptoDaysV1 p = none) := by
  have hlookup : ∀ p : String, p ∉ ["1h", "1d", "1w"] →
      cryptoDaysMap.lookup p = none := by
    intro p hp
    simp only [List.mem_cons, List.not_mem_nil, or_false, not_or] at hp
    obtain ⟨h1, h2, h3⟩ := hp
    simp [cryptoDaysMap, List.lookup, beq_eq_false_iff_ne.mpr h1,
      beq_eq_false_iff_ne.mpr h2, beq_eq_false_iff_ne.mpr h3]
  refine ⟨by decide, by decide, ?_, ?_⟩
  · intro p hp; simp [cryptoDays, hlookup p hp]
  · intro p hp; simp [cryptoDaysV1, hlookup p hp]

/-- C7 (witness): the amended theorem applied at a concrete unrecognized
period. -/
theorem cryptoDays_spec_witness : cryptoDays "5m" = 1 ∧ cryptoDaysV1 "5m" = none :=
  ⟨cryptoDays_spec.2.2.1 "5m" (by decide), cryptoDays_spec.2.2.2 "5m" (by decide)⟩

/-! ## C1 — PriceResult invariant -/

/-- The invariant the spec states for `PriceResult`. -/
def ResultInvariant (r : PriceResult) : Prop :=
  (r.error.isSome → r.candles = [] ∧ r.current_price = none) ∧
  (r.error = none →
    r.candles ≠ [] ∧ r.current_price = (r.candles.getLast?).map Candle.c)

/-- Mapping a left inverse of the element builder over `jsMapIdx` recovers
the input list. -/
lemma map_jsMapIdx {α β : Type} (f : ℕ → α → β) (g : β → α)
    (hgf : ∀ i a, g (f i a) = a) (l : List α) (j : ℕ) :
    (jsMapIdx f l j).map g = l := by
  induction l generalizing j with
  | nil => rfl
  | cons a as ih => simp only [jsMapIdx, List.map_cons, hgf, ih]

/-- The close projection of the forex candle construction: the closes of the built
candles are exactly the input closes. -/
lemma forexCandles_map_c (dates : List String) (closes : List ℚ) :
    (forexCandles dates closes).map Candle.c = closes :=
  map_jsMapIdx _ Candle.c (fun _ _ => rfl) closes 0

/-- C1 (counterexample): on an upstream response whose `rates` field is an
empty object, the src/index.js forex adapter returns `error: null` together
with an *empty* candle list and an absent `current_price`, contradicting the
claimed invariant (`error` absent ⇒ `candles` non-empty). -/
theorem priceResult_invariant_v1_forex_cex :
    (fetchForexPriceV1 (.ok (some []))).error = none ∧
    (fetchForexPriceV1 (.ok (some []))).candles = [] ∧
    (fetchForexPriceV1 (.ok (some []))).current_price = none := by decide

/-- C1 (amended): the invariant (`error` present ⇒ no candles and no current
price; `error` absent ⇒ non-empty candles whose last close is the current
price) holds for all three adapters of the cached variant
(src/unnamed/part_000) and for the stock and crypto adapters of
src/index.js.  The src/index.js forex adapter satisfies it except that, on
an empty `rates` object, it can return `error: null` with *empty* candles
(its current price still equals the close of the last candle vacuously,
both being absent). -/
theorem priceResult_invariant_per_variant :
    (∀ resp, ResultInvariant (fetchStockPriceNorm resp)) ∧
    (∀ resp, ResultInvariant (fetchCryptoPriceNorm resp)) ∧
    (∀ resp, ResultInvariant (fetchForexPriceNorm resp)) ∧
    (∀ resp, ResultInvariant (fetchStockPriceV1 resp)) ∧
    (∀ resp, ResultInvariant (fetchCryptoPriceV1 resp)) ∧
    (∀ resp, ((fetchForexPriceV1 resp).error).isSome →
      (fetchForexPriceV1 resp).candles = [] ∧
      (fetchForexPriceV1 resp).current_price = none) ∧
    (∀ resp, (fetchForexPriceV1 resp).error = none →
      (fetchForexPriceV1 resp).current_price =
        (((fetchForexPriceV1 resp).candles).getLast?).map Candle.c) := by
  refine ⟨?_, ?_, ?_, ?_, ?_, ?_, ?_⟩
  · rintro (msg | quotes)
    · exact ⟨fun _ => ⟨rfl, rfl⟩, fun h => by simp [fetchStockPriceNorm] at h⟩
    · by_cases hq : quotes.isEmpty
      · exact ⟨fun _ => by simp [fetchStockPriceNorm, hq], fun h => by
          simp [fetchStockPriceNorm, hq] at h⟩
      · refine ⟨fun h => by simp [fetchStockPriceNorm, hq] at h, fun _ => ⟨?_, ?_⟩⟩
        · simp [fetchStockPriceNorm, hq]
          simpa [List.isEmpty_iff] using hq
        · simp [fetchStockPriceNorm, hq]
  · rintro (msg | data)
    · exact ⟨fun _ => ⟨rfl, rfl⟩, fun h => by simp [fetchCryptoPriceNorm] at h⟩
    · by_cases hq : data.isEmpty
      · exact ⟨fun _ => by simp [fetchCryptoPriceNorm, hq], fun h => by
          simp [fetchCryptoPriceNorm, hq] at h⟩
      · refine ⟨fun h => by simp [fetchCryptoPriceNorm, hq] at h, fun _ => ⟨?_, ?_⟩⟩
        · simp [fetchCryptoPriceNorm, hq]
          simpa [List.isEmpty_iff] using hq
        · simp [fetchCryptoPriceNorm, hq]
  · rintro (msg | (_ | ratesObj))
    · exact ⟨fun _ => ⟨rfl, rfl⟩, fun h => by simp [fetchForexPriceNorm] at h⟩
    · exact ⟨fun _ => ⟨rfl, rfl⟩, fun h => by simp [fetchForexPriceNorm] at h⟩
    · by_cases hq : ratesObj.isEmpty
      · exact ⟨fun _ => by simp [fetchForexPriceNorm, hq], fun h => by
          simp [fetchForexPriceNorm, hq] at h⟩
      · have hne : ratesObj ≠ [] := by simpa [List.isEmpty_iff] using hq
        have hperm := List.perm_insertionSort dateLe ratesObj
        have hsorted_ne : List.insertionSort dateLe ratesObj ≠ [] := by
          intro hcontra
          have hlen := hperm.length_eq
          rw [hcontra] at hlen
          have hz : ratesObj.length = 0 := by simpa using hlen.symm
          exact hne (List.length_eq_zero.mp hz)
        have hcloses_ne :
            (List.insertionSort dateLe ratesObj).map (fun p => jsOrOpt p.2 0) ≠ [] := by
          simpa using hsorted_ne
        have hmapc := forexCandles_map_c
          ((List.insertionSort dateLe ratesObj).map Prod.fst)
          ((List.insertionSort dateLe ratesObj).map (fun p => jsOrOpt p.2 0))
        refine ⟨fun h => by simp [fetchForexPriceNorm, hq] at h, fun _ => ⟨?_, ?_⟩⟩
        · simp only [fetchForexPriceNorm]
          simp only [hq, Bool.not_eq_true] at *
          simp only [hq, Bool.false_eq_true, if_false]
          intro hcand
          apply hcloses_ne
          rw [← hmapc, hcand, List.map_nil]
        · simp only [fetchForexPriceNorm]
          simp only [hq, Bool.not_eq_true] at *
          simp only [hq, Bool.false_eq_true, if_false]
          rw [← List.getLast?_map, hmapc]
  · rintro (msg | quotes)
    · exact ⟨fun _ => ⟨rfl, rfl⟩, fun h => by simp [fetchStockPriceV1] at h⟩
    · match hlast : quotes.getLast? with
      | none =>
        exact ⟨fun _ => by simp [fetchStockPriceV1, hlast], fun h => by
          simp [fetchStockPriceV1, hlast] at h⟩
      | some lastQ =>
        refine ⟨fun h => by simp [fetchStockPriceV1, hlast] at h, fun _ => ⟨?_, ?_⟩⟩
        · have hne : quotes ≠ [] := by
            intro hcontra; rw [hcontra] at hlast; simp at hlast
          simp [fetchStockPriceV1, hlast, hne]
        · have : (quotes.map stockCandle).getLast? = (quotes.getLast?).map stockCandle :=
            List.getLast?_map _ _
          simp [fetchStockPriceV1, hlast, this, stockCandle]
  · rintro (msg | data)
    · exact ⟨fun _ => ⟨rfl, rfl⟩, fun h => by simp [fetchCryptoPriceV1] at h⟩
    · by_cases hq : data.isEmpty
      · exact ⟨fun _ => by simp [fetchCryptoPriceV1, hq], fun h => by
          simp [fetchCryptoPriceV1, hq] at h⟩
      · refine ⟨fun h => by simp [fetchCryptoPriceV1, hq] at h, fun _ => ⟨?_, ?_⟩⟩
        · simp [fetchCryptoPriceV1, hq]
          simpa [List.isEmpty_iff] using hq
        · have : (data.map cryptoCandle).getLast? = (data.getLast?).map cryptoCandle :=
            List.getLast?_map _ _
          simp [fetchCryptoPriceV1, hq, this, cryptoCandle]
          cases data.getLast? <;> rfl
  · rintro (msg | (_ | ratesObj)) h
    · exact ⟨rfl, rfl⟩
    · exact ⟨rfl, rfl⟩
    · simp [fetchForexPriceV1] at h
  · rintro (msg | (_ | ratesObj)) h
    · simp [fetchForexPriceV1] at h
    · simp [fetchForexPriceV1] at h
    · have hmapc := forexCandles_map_c (ratesObj.map Prod.fst)
        (ratesObj.map (fun p => jsOrOpt p.2 0))
      simp only [fetchForexPriceV1]
      rw [← List.getLast?_map, hmapc]

/-- C1 (witness): the invariant theorem applied at concrete upstream
responses, discharging the `error`-present and `error`-absent hypotheses. -/
theorem priceResult_invariant_witness :
    ((fetchStockPriceNorm (.fail "boom")).candles = [] ∧
      (fetchStockPriceNorm (.fail "boom")).current_price = none) ∧
    ((fetchCryptoPriceNorm (.ok [⟨1, 2, 3, 1, 2⟩])).candles ≠ [] ∧
      (fetchCryptoPriceNorm (.ok [⟨1, 2, 3, 1, 2⟩])).current_price =
        (((fetchCryptoPriceNorm (.ok [⟨1, 2, 3, 1, 2⟩])).candles).getLast?).map Candle.c) ∧
    ((fetchForexPriceNorm (.ok none)).candles = [] ∧
      (fetchForexPriceNorm (.ok none)).current_price = none) ∧
    ((fetchStockPriceV1 (.ok [])).candles = [] ∧
      (fetchStockPriceV1 (.ok [])).current_price = none) :=
  ⟨(priceResult_invariant_per_variant.1 (.fail "boom")).1 rfl,
   (priceResult_invariant_per_variant.2.1 (.ok [⟨1, 2, 3, 1, 2⟩])).2 rfl,
   (priceResult_invariant_per_variant.2.2.1 (.ok none)).1 rfl,
   (priceResult_invariant_per_variant.2.2.2.1 (.ok [])).1 rfl⟩

/-! ## C5 — cache round-trip -/

/-- C5 (counterexample): the claim also covers the adapters of src/index.js
(its sources cite `fetchStockPrice`, lines 30-55), but that variant has no
cache at all: fetching the same `(symbol, period)` twice issues two upstream
calls, not one. -/
theorem uncached_v1_two_calls_cex :
    (fetchStockPriceV1Run (fun _ _ => .fail "down") "AAPL" "1d").2 +
      (fetchStockPriceV1Run (fun _ _ => .fail "down") "AAPL" "1d").2 = 2 ∧
    ¬ ((fetchStockPriceV1Run (fun _ _ => .fail "down") "AAPL" "1d").2 +
      (fetchStockPriceV1Run (fun _ _ => .fail "down") "AAPL" "1d").2 = 1) := by
  decide

/-- C5 (amended): for each *cached* adapter of src/unnamed/part_000, fetching
the same `(class, symbol, period)` key twice while the first entry is still
live (within the TTL window, modelled as the entry being present) issues
exactly one upstream call in total, and the second fetch returns the first
fetch's result.  Because the payload is written to the cache on *every* path
— including the error paths — this holds for failing upstreams too.  The
src/index.js adapters have no cache: every invocation issues exactly one
upstream call, so two fetches of the same key issue two. -/
theorem cache_round_trip :
    (∀ (upstream : String → String → Upstream (List StockQuote))
       (c : Cache) (symbol period : String),
      cacheGet c ("stock:" ++ symbol ++ ":" ++ period) = none →
      (fetchStockPrice upstream c symbol period).2.2 +
        (fetchStockPrice upstream
          (fetchStockPrice upstream c symbol period).2.1 symbol period).2.2 = 1 ∧
      (fetchStockPrice upstream
          (fetchStockPrice upstream c symbol period).2.1 symbol period).1 =
        (fetchStockPrice upstream c symbol period).1) ∧
    (∀ (upstream : String → String → Upstream (List CryptoRow))
       (c : Cache) (symbol period : String),
      cacheGet c ("crypto:" ++ symbol ++ ":" ++ period) = none →
      (fetchCryptoPrice upstream c symbol period).2.2 +
        (fetchCryptoPrice upstream
          (fetchCryptoPrice upstream c symbol period).2.1 symbol period).2.2 = 1 ∧
      (fetchCryptoPrice upstream
          (fetchCryptoPrice upstream c symbol period).2.1 symbol period).1 =
        (fetchCryptoPrice upstream c symbol period).1) ∧
    (∀ (upstream : String → String → Upstream (Option RatesObj))
       (c : Cache) (pair period : String),
      cacheGet c ("forex:" ++ pair ++ ":" ++ period) = none →
      (fetchForexPrice upstream c pair period).2.2 +
        (fetchForexPrice upstream
          (fetchForexPrice upstream c pair period).2.1 pair period).2.2 = 1 ∧
      (fetchForexPrice upstream
          (fetchForexPrice upstream c pair period).2.1 pair period).1 =
        (fetchForexPrice upstream c pair period).1) ∧
    (∀ (upstream : String → String → Upstream (List StockQuote))
       (symbol period : String),
      (fetchStockPriceV1Run upstream symbol period).2 +
        (fetchStockPriceV1Run upstream symbol period).2 = 2) ∧
    (∀ (upstream : String → String → Upstream (List CryptoRow))
       (symbol period : String),
      (fetchCryptoPriceV1Run upstream symbol period).2 +
        (fetchCryptoPriceV1Run upstream symbol period).2 = 2) ∧
    (∀ (upstream : String → String → Upstream (Option RatesObj))
       (pair period : String),
      (fetchForexPriceV1Run upstream pair period).2 +
        (fetchForexPriceV1Run upstream pair period).2 = 2) := by
  refine ⟨?_, ?_, ?_, fun _ _ _ => rfl, fun _ _ _ => rfl, fun _ _ _ => rfl⟩
  · intro upstream c symbol period h
    have h2 : List.lookup ("stock:" ++ symbol ++ ":" ++ period) c = none := h
    simp [fetchStockPrice, cacheGet, cacheSet, h2, List.lookup]
  · intro upstream c symbol period h
    have h2 : List.lookup ("crypto:" ++ symbol ++ ":" ++ period) c = none := h
    simp [fetchCryptoPrice, cacheGet, cacheSet, h2, List.lookup]
  · intro upstream c pair period h
    have h2 : List.lookup ("forex:" ++ pair ++ ":" ++ period) c = none := h
    simp [fetchForexPrice, cacheGet, cacheSet, h2, List.lookup]

/-- C5 (witness): the round-trip theorem on an empty cache with an upstream
that fails — one upstream call total, and the cached error result is served
on the second fetch. -/
theorem cache_round_trip_witness :
    cacheGet [] ("stock:" ++ "AAPL" ++ ":" ++ "1d") = none ∧
    ((fetchStockPrice (fun _ _ => .fail "boom") [] "AAPL" "1d").2.2 +
      (fetchStockPrice (fun _ _ => .fail "boom")
        (fetchStockPrice (fun _ _ => .fail "boom") [] "AAPL" "1d").2.1
        "AAPL" "1d").2.2 = 1 ∧
     (fetchStockPrice (fun _ _ => .fail "boom")
        (fetchStockPrice (fun _ _ => .fail "boom") [] "AAPL" "1d").2.1
        "AAPL" "1d").1 =
      (fetchStockPrice (fun _ _ => .fail "boom") [] "AAPL" "1d").1) :=
  ⟨rfl, cache_round_trip.1 (fun _ _ => .fail "boom") [] "AAPL" "1d" rfl⟩

/-! ## C4 — batch size -/

/-- C4 (counterexample): with the stock universe (10 symbols) and requested
limit 1, the claim says the ranking endpoint's batch queries
`min(3·1, 10) = 3` symbols, but the src/index.js gainers endpoint passes
`limit * 3` to `fetchTopAssets`, which multiplies by 3 again: 9 adapter
calls are issued. -/
theorem batch_size_v1_cex :
    (gainersEndpointV1 (fun _ _ => ⟨none, [], some "down"⟩)
      "stocks" (some 1) none).upstreamCalls = 9 ∧
    min (3 * 1) STOCK_SYMBOLS.length = 3 := by decide

/-- C4 (amended): `fetchTopAssets(assetType, limit, period)` itself queries
exactly `min(limit·3, S)` symbols (S the universe size) and returns between
0 and that many `AssetQuote`s.  The cached variant's ranking endpoints
(gainers, losers, stable) pass the clamped user limit `L`, so they query
`min(3L, S)`; the src/index.js endpoints (gainers, losers, stable) pass
`3L`, so they query `min(9L, S)`. -/
theorem batch_size_spec :
    (∀ (fetch : String → String → PriceResult) (assetType : String)
       (limit : ℕ) (period : String),
      (fetchTopAssets fetch assetType limit period).2 =
        min (limit * 3) (symbolsFor assetType).length ∧
      (fetchTopAssets fetch assetType limit period).1.length ≤
        (fetchTopAssets fetch assetType limit period).2) ∧
    (∀ (fetch : String → String → PriceResult) (aty : String)
       (limitQ : Option ℤ) (tQ : Option String),
      (tQ.getD "1d") ∈ validPeriods →
      (gainersEndpoint fetch aty limitQ tQ).upstreamCalls =
        min (3 * clampLimit limitQ) (symbolsFor aty).length ∧
      (losersEndpoint fetch aty limitQ tQ).upstreamCalls =
        min (3 * clampLimit limitQ) (symbolsFor aty).length) ∧
    (∀ (fetch : String → String → PriceResult) (aty : String)
       (limitQ : Option ℤ) (tQ : Option String),
      (tQ.getD "1d") ∈ validPeriods →
      (gainersEndpointV1 fetch aty limitQ tQ).upstreamCalls =
        min (9 * clampLimit limitQ) (symbolsFor aty).length ∧
      (losersEndpointV1 fetch aty limitQ tQ).upstreamCalls =
        min (9 * clampLimit limitQ) (symbolsFor aty).length) ∧
    (∀ (fetch : String → String → PriceResult) (aty : String)
       (limitQ : Option ℤ) (vQ : Option ℚ) (tQ : Option String),
      (tQ.getD "1w") ∈ stableValidPeriods →
      (stableEndpoint fetch aty limitQ vQ tQ).upstreamCalls =
        min (3 * clampLimit limitQ) (symbolsFor aty).length ∧
      (stableEndpointV1 fetch aty limitQ vQ tQ).upstreamCalls =
        min (9 * clampLimit limitQ) (symbolsFor aty).length) := by
  have hbatch : ∀ (fetch : String → String → PriceResult) (assetType : String)
      (limit : ℕ) (period : String),
      (fetchTopAssets fetch assetType limit period).2 =
        min (limit * 3) (symbolsFor assetType).length := by
    intro fetch assetType limit period
    simp only [fetchTopAssets, List.length_take]
    omega
  refine ⟨fun fetch assetType limit period => ⟨hbatch _ _ _ _, ?_⟩, ?_, ?_, ?_⟩
  · simp only [fetchTopAssets]
    exact (List.length_filterMap_le _ _).trans (le_of_eq rfl)
  · intro fetch aty limitQ tQ ht
    have hmem : ¬ (tQ.getD "1d") ∉ validPeriods := not_not_intro ht
    constructor
    · simp only [gainersEndpoint, hmem, if_false, hbatch]
      omega
    · simp only [losersEndpoint, hmem, if_false, hbatch]
      omega
  · intro fetch aty limitQ tQ ht
    have hmem : ¬ (tQ.getD "1d") ∉ validPeriods := not_not_intro ht
    constructor
    · simp only [gainersEndpointV1, hmem, if_false, hbatch]
      omega
    · simp only [losersEndpointV1, hmem, if_false, hbatch]
      omega
  · intro fetch aty limitQ vQ tQ ht
    have hmem : ¬ (tQ.getD "1w") ∉ stableValidPeriods := not_not_intro ht
    constructor
    · simp only [stableEndpoint, hmem, if_false, hbatch]
      omega
    · simp only [stableEndpointV1, hmem, if_false, hbatch]
      omega

/-- C4 (witness): the amended theorem applied at concrete inputs
(crypto universe of 10 symbols, limit 2). -/
theorem batch_size_spec_witness :
    ((fetchTopAssets (fun _ _ => ⟨none, [], some "down"⟩) "crypto" 2 "1d").2 =
      min (2 * 3) (symbolsFor "crypto").length ∧
     (fetchTopAssets (fun _ _ => ⟨none, [], some "down"⟩) "crypto" 2 "1d").1.length ≤
      (fetchTopAssets (fun _ _ => ⟨none, [], some "down"⟩) "crypto" 2 "1d").2) ∧
    ((gainersEndpoint (fun _ _ => ⟨none, [], some "down"⟩) "crypto" (some 2) none).upstreamCalls =
      min (3 * clampLimit (some 2)) (symbolsFor "crypto").length ∧
     (losersEndpoint (fun _ _ => ⟨none, [], some "down"⟩) "crypto" (some 2) none).upstreamCalls =
      min (3 * clampLimit (some 2)) (symbolsFor "crypto").length) ∧
    ((stableEndpoint (fun _ _ => ⟨none, [], some "down"⟩) "crypto" (some 2) none none).upstreamCalls =
      min (3 * clampLimit (some 2)) (symbolsFor "crypto").length ∧
     (stableEndpointV1 (fun _ _ => ⟨none, [], some "down"⟩) "crypto" (some 2) none none).upstreamCalls =
      min (9 * clampLimit (some 2)) (symbolsFor "crypto").length) :=
  ⟨batch_size_spec.1 (fun _ _ => ⟨none, [], some "down"⟩) "crypto" 2 "1d",
   batch_size_spec.2.1 (fun _ _ => ⟨none, [], some "down"⟩) "crypto" (some 2) none
     (by decide),
   batch_size_spec.2.2.2 (fun _ _ => ⟨none, [], some "down"⟩) "crypto" (some 2) none none
     (by decide)⟩

/-! ## C8 — input validation -/

/-- C8 (counterexample): on a ranking endpoint an unsupported asset class is
*not* rejected: `/api/v1/gainers/bonds` with default query parameters
returns HTTP 200 (with an empty item list), not a 4xx, because
`fetchTopAssets` silently maps an unknown class to an empty symbol universe.
(No adapter call is made, as the claim says.) -/
theorem ranking_unknown_class_cex :
    (gainersEndpoint (fun _ _ => ⟨none, [], some "down"⟩) "bonds" none none).status = 200 ∧
    (gainersEndpoint (fun _ _ => ⟨none, [], some "down"⟩) "bonds" none none).upstreamCalls = 0 := by
  decide

/-- C8 (amended): an invalid `period` on the price endpoint, an unsupported
asset class on the price endpoint, and an invalid `timeframe` on any ranking
endpoint each produce a 400 response with no adapter call, in both variants.
An unsupported asset class on a ranking endpoint, however, produces a 200
response with an empty item list (still with no adapter call), not a 4xx. -/
theorem endpoint_validation_spec :
    (∀ (fS fC fF : String → String → PriceResult) (aty sym p : String),
      p ∉ validPeriods →
      priceEndpoint fS fC fF aty sym (some p) = ⟨400, 0, none⟩) ∧
    (∀ (fS fC fF : String → String → PriceResult) (aty sym : String)
       (pQ : Option String),
      (pQ.getD "1d") ∈ validPeriods →
      aty ∉ ["stocks", "crypto", "forex"] →
      priceEndpoint fS fC fF aty sym pQ = ⟨400, 0, none⟩) ∧
    (∀ (f : String → String → PriceResult) (aty : String) (lQ : Option ℤ)
       (t : String),
      t ∉ validPeriods →
      gainersEndpoint f aty lQ (some t) = ⟨400, 0, [], 0⟩ ∧
      gainersEndpointV1 f aty lQ (some t) = ⟨400, 0, [], 0⟩ ∧
      losersEndpoint f aty lQ (some t) = ⟨400, 0, [], 0⟩ ∧
      losersEndpointV1 f aty lQ (some t) = ⟨400, 0, [], 0⟩) ∧
    (∀ (f : String → String → PriceResult) (aty : String) (lQ : Option ℤ)
       (vQ : Option ℚ) (t : String),
      t ∉ stableValidPeriods →
      (stableEndpoint f aty lQ vQ (some t)).status = 400 ∧
      (stableEndpoint f aty lQ vQ (some t)).upstreamCalls = 0) ∧
    (∀ (f : String → String → PriceResult) (aty : String) (lQ : Option ℤ)
       (tQ : Option String),
      (tQ.getD "1d") ∈ validPeriods →
      aty ∉ ["stocks", "crypto", "forex"] →
      (gainersEndpoint f aty lQ tQ).status = 200 ∧
      (gainersEndpoint f aty lQ tQ).upstreamCalls = 0 ∧
      (gainersEndpoint f aty lQ tQ).items = []) := by
  have hsym : ∀ aty : String, aty ∉ ["stocks", "crypto", "forex"] →
      symbolsFor aty = [] := by
    intro aty h
    simp only [List.mem_cons, List.not_mem_nil, or_false, not_or] at h
    obtain ⟨h1, h2, h3⟩ := h
    simp [symbolsFor, h1, h2, h3]
  refine ⟨?_, ?_, ?_, ?_, ?_⟩
  · intro fS fC fF aty sym p hp
    simp only [priceEndpoint, Option.getD_some]
    rw [if_pos hp]
  · intro fS fC fF aty sym pQ hp haty
    simp only [List.mem_cons, List.not_mem_nil, or_false, not_or] at haty
    obtain ⟨h1, h2, h3⟩ := haty
    simp only [priceEndpoint]
    rw [if_neg (not_not_intro hp), if_neg h1, if_neg h2, if_neg h3]
  · intro f aty lQ t ht
    refine ⟨?_, ?_, ?_, ?_⟩
    · simp only [gainersEndpoint, Option.getD_some]; rw [if_pos ht]
    · simp only [gainersEndpointV1, Option.getD_some]; rw [if_pos ht]
    · simp only [losersEndpoint, Option.getD_some]; rw [if_pos ht]
    · simp only [losersEndpointV1, Option.getD_some]; rw [if_pos ht]
  · intro f aty lQ vQ t ht
    constructor
    · simp only [stableEndpoint, Option.getD_some]; rw [if_pos ht]
    · simp only [stableEndpoint, Option.getD_some]; rw [if_pos ht]
  · intro f aty lQ tQ ht haty
    have hempty := hsym aty haty
    refine ⟨?_, ?_, ?_⟩
    · simp only [gainersEndpoint]
      rw [if_neg (not_not_intro ht)]
    · simp only [gainersEndpoint]
      rw [if_neg (not_not_intro ht)]
      simp [fetchTopAssets, hempty]
    · simp only [gainersEndpoint]
      rw [if_neg (not_not_intro ht)]
      simp [fetchTopAssets, hempty, getGainers]

/-- C8 (witness): the amended theorem applied at concrete requests. -/
theorem endpoint_validation_spec_witness :
    priceEndpoint (fun _ _ => ⟨none, [], some "x"⟩) (fun _ _ => ⟨none, [], some "x"⟩)
      (fun _ _ => ⟨none, [], some "x"⟩) "stocks" "AAPL" (some "2d") = ⟨400, 0, none⟩ ∧
    priceEndpoint (fun _ _ => ⟨none, [], some "x"⟩) (fun _ _ => ⟨none, [], some "x"⟩)
      (fun _ _ => ⟨none, [], some "x"⟩) "bonds" "AAPL" none = ⟨400, 0, none⟩ ∧
    gainersEndpoint (fun _ _ => ⟨none, [], some "x"⟩) "stocks" none (some "2d") =
      ⟨400, 0, [], 0⟩ ∧
    (stableEndpoint (fun _ _ => ⟨none, [], some "x"⟩) "stocks" none none
      (some "1h")).status = 400 ∧
    (gainersEndpoint (fun _ _ => ⟨none, [], some "x"⟩) "bonds" none none).items = [] :=
  ⟨endpoint_validation_spec.1 _ _ _ "stocks" "AAPL" "2d" (by decide),
   endpoint_validation_spec.2.1 _ _ _ "bonds" "AAPL" none (by decide) (by decide),
   (endpoint_validation_spec.2.2.1 _ "stocks" none "2d" (by decide)).1,
   (endpoint_validation_spec.2.2.2.1 _ "stocks" none none "1h" (by decide)).1,
   (endpoint_validation_spec.2.2.2.2 _ "bonds" none none (by decide) (by decide)).2.2⟩

/-! ## C9 — forex candle construction -/

lemma jsMapIdx_get? {α β : Type} (f : ℕ → α → β) (l : List α) (j i : ℕ) :
    (jsMapIdx f l j).get? i = (l.get? i).map fun a => f (j + i) a := by
  induction l generalizing j i with
  | nil => simp [jsMapIdx]
  | cons a as ih =>
    cases i with
    | zero => simp [jsMapIdx]
    | succ n =>
      have h := ih (j + 1) n
      have hidx : j + 1 + n = j + (n + 1) := by omega
      simp only [jsMapIdx, List.get?_cons_succ, h, hidx]

lemma getD_eq_of_get? {α : Type} {l : List α} {i : ℕ} {a : α} (d : α)
    (h : l.get? i = some a) : l.getD i d = a := by
  induction l generalizing i with
  | nil => simp at h
  | cons b bs ih =>
    cases i with
    | zero => simp at h; simp [h]
    | succ n =>
      simp only [List.get?] at h
      simpa [List.getD] using ih h

/-- C9 (counterexample): on a rates response containing a zero rate followed
by a nonzero one, the candle built for the second day has `open` equal to
its *own* close (5), not the previous day's close (0): `closes[i-1] || close`
falls back whenever the previous close is falsy, i.e. zero, not only when it
is unavailable.  The adapter reports no error on this response. -/
theorem forex_candle_open_zero_cex :
    (fetchForexPriceV1
      (.ok (some [("2024-01-01", some 0), ("2024-01-02", some 5)]))).error = none ∧
    ((fetchForexPriceV1
      (.ok (some [("2024-01-01", some 0), ("2024-01-02", some 5)]))).candles.getD 1
        ⟨"", 0, 0, 0, 0, 0⟩).o ≠
    ((fetchForexPriceV1
      (.ok (some [("2024-01-01", some 0), ("2024-01-02", some 5)]))).candles.getD 0
        ⟨"", 0, 0, 0, 0, 0⟩).c := by decide

/-- C9 (amended): in every candle sequence built by the forex adapters from
a close series, each candle's `high`, `low` and `close` equal that day's
value (which equals the day's single rate whenever the rate is present,
zero being substituted for a missing rate); each candle's `open` equals the
previous day's close when that close is *nonzero*, and falls back to the
candle's own close when the previous close is zero or for the first candle. -/
theorem forexCandles_spec :
    (∀ r : ℚ, jsOrOpt (some r) 0 = r) ∧
    (∀ (dates : List String) (closes : List ℚ) (i : ℕ) (c : Candle),
      (forexCandles dates closes).get? i = some c →
      (c.h = closes.getD i 0 ∧ c.l = closes.getD i 0 ∧ c.c = closes.getD i 0) ∧
      (i = 0 → c.o = c.c) ∧
      (0 < i → closes.getD (i - 1) 0 ≠ 0 → c.o = closes.getD (i - 1) 0) ∧
      (0 < i → closes.getD (i - 1) 0 = 0 → c.o = c.c)) := by
  constructor
  · intro r
    by_cases hr : r = 0 <;> simp [jsOrOpt, hr]
  · intro dates closes i c hc
    rw [forexCandles, jsMapIdx_get?] at hc
    match hcl : closes.get? i with
    | none => rw [hcl] at hc; simp at hc
    | some close =>
      rw [hcl] at hc
      rw [Option.map_some'] at hc
      have hc2 : c = _ := (Option.some.injEq _ _ ▸ hc).symm
      have hclose : closes.getD i 0 = close := getD_eq_of_get? 0 hcl
      subst hc2
      refine ⟨⟨hclose.symm, hclose.symm, hclose.symm⟩, ?_, ?_, ?_⟩
      · intro h0; simp [h0]
      · intro hpos hprev
        have hne : ¬ i = 0 := by omega
        have hprev2 : closes[i - 1]?.getD 0 ≠ 0 := by
          simpa [List.getD_eq_getElem?_getD] using hprev
        simp [jsOrQ, hne, hprev2]
      · intro hpos hprev
        have hne : ¬ i = 0 := by omega
        have hprev2 : closes[i - 1]?.getD 0 = 0 := by
          simpa [List.getD_eq_getElem?_getD] using hprev
        simp [jsOrQ, hne, hprev2]

/-- C9 (witness): the amended theorem applied to a concrete candle sequence
with a nonzero previous close. -/
theorem forexCandles_spec_witness :
    jsOrOpt (some 5) 0 = 5 ∧
    ((⟨"b", 3, 7, 7, 7, 0⟩ : Candle).h = ([3, 7] : List ℚ).getD 1 0 ∧
     (⟨"b", 3, 7, 7, 7, 0⟩ : Candle).l = ([3, 7] : List ℚ).getD 1 0 ∧
     (⟨"b", 3, 7, 7, 7, 0⟩ : Candle).c = ([3, 7] : List ℚ).getD 1 0) ∧
    (⟨"b", 3, 7, 7, 7, 0⟩ : Candle).o = ([3, 7] : List ℚ).getD 0 0 :=
  ⟨forexCandles_spec.1 5,
   (forexCandles_spec.2 ["a", "b"] [3, 7] 1 ⟨"b", 3, 7, 7, 7, 0⟩ (by decide)).1,
   (forexCandles_spec.2 ["a", "b"] [3, 7] 1 ⟨"b", 3, 7, 7, 7, 0⟩ (by decide)).2.2.1
     (by decide) (by decide)⟩

/-! ## C6 and C10 — ranking -/

lemma attachChangeV1_eq_of_finite (d : AssetQuote)
    (h : d.prices.length < 2 ∨ d.prices.headI ≠ 0) :
    attachChangeV1 d = someRanked (attachChange d) := by
  rcases h with h | h
  · simp [attachChangeV1, someRanked, attachChange, calculateChangeV1,
      calculateChange, h]
  · by_cases hlen : d.prices.length < 2
    · simp [attachChangeV1, someRanked, attachChange, calculateChangeV1,
        calculateChange, hlen]
    · simp [attachChangeV1, someRanked, attachChange, calculateChangeV1,
        calculateChange, hlen, h]

lemma getGainers_mem_attach {data : List AssetQuote} {x : RankedAsset} {limit : ℕ}
    (hx : x ∈ getGainers data limit) : ∃ q ∈ data, attachChange q = x := by
  have h1 : x ∈ List.insertionSort gainersRel (data.map attachChange) :=
    List.Sublist.mem hx (List.take_sublist _ _)
  have h2 : x ∈ data.map attachChange :=
    ((List.perm_insertionSort gainersRel _).mem_iff).mp h1
  simpa using h2

/-- C6 (counterexample): the claim also covers src/index.js's `getGainers`
(cited in its sources), whose `calculateChange` is unguarded: a `[0, 0]`
price series attaches a non-finite `pct_change` (`0/0` is `NaN`, modelled as
`none`).  A `NaN` comparator result is coerced to a tie against every
element, making the comparator inconsistent, so per the ECMAScript spec the
sort order — and with it the claimed composition equality — is
implementation-defined for that variant, not guaranteed. -/
theorem gainers_topk_v1_cex :
    (attachChangeV1 ⟨"n", [0, 0], some 0⟩).pct_change = none := by decide

/-- C6 (amended): for the cached variant's `getGainers`
(src/unnamed/part_000), composing the ranking is stable — re-ranking the top
50 and taking 10 equals taking the top 10 directly (for any quote list with
at least 10 positive-change entries, as the claim is stated; the hypothesis
is not actually needed).  Attaching `pct_change` twice is idempotent, a
stable sort of a sorted list is the identity, and
`take 10 ∘ take 50 = take 10`.  For src/index.js the same holds whenever
every series in `data` has fewer than 2 points or a nonzero first price:
on that domain its attached records coincide with the cached variant's
(second conjunct), so both variants rank identically; outside it the
attached `pct_change` is non-finite and the JS sort order is
implementation-defined. -/
theorem gainers_topk_stable (data : List AssetQuote)
    (h : 10 ≤ (data.filter fun d => decide (0 < calculateChange d.prices)).length) :
    getGainersOnRanked (getGainers data 50) 10 = getGainers data 10 ∧
    ((∀ d ∈ data, d.prices.length < 2 ∨ d.prices.headI ≠ 0) →
      data.map attachChangeV1 = (data.map attachChange).map someRanked) := by
  refine ⟨?_, ?_⟩
  case refine_2 =>
    intro hfin
    rw [List.map_map]
    exact List.map_congr_left fun d hd => attachChangeV1_eq_of_finite d (hfin d hd)
  have hmap : (getGainers data 50).map reattachChange = getGainers data 50 := by
    have hcong : ∀ x ∈ getGainers data 50, reattachChange x = id x := by
      intro x hx
      obtain ⟨q, hq, rfl⟩ := getGainers_mem_attach hx
      simp [reattachChange, attachChange]
    rw [List.map_congr_left hcong, List.map_id]
  have hsorted : List.Sorted gainersRel (getGainers data 50) :=
    List.Pairwise.sublist (List.take_sublist _ _)
      (List.sorted_insertionSort gainersRel (data.map attachChange))
  rw [getGainersOnRanked, hmap, List.Sorted.insertionSort_eq hsorted]
  show ((List.insertionSort gainersRel (data.map attachChange)).take 50).take 10 =
    (List.insertionSort gainersRel (data.map attachChange)).take 10
  rw [List.take_take]
  norm_num

/-- C6 (witness): the composition theorem on a concrete list of ten quotes,
all with a +100% change, discharging both the positive-entries hypothesis
and the finite-domain hypothesis of the src/index.js conjunct. -/
theorem gainers_topk_stable_witness :
    10 ≤ (([⟨"s1", [1, 2], some 2⟩, ⟨"s2", [1, 2], some 2⟩, ⟨"s3", [1, 2], some 2⟩,
      ⟨"s4", [1, 2], some 2⟩, ⟨"s5", [1, 2], some 2⟩, ⟨"s6", [1, 2], some 2⟩,
      ⟨"s7", [1, 2], some 2⟩, ⟨"s8", [1, 2], some 2⟩, ⟨"s9", [1, 2], some 2⟩,
      ⟨"s10", [1, 2], some 2⟩] : List AssetQuote).filter
        fun d => decide (0 < calculateChange d.prices)).length ∧
    getGainersOnRanked (getGainers [⟨"s1", [1, 2], some 2⟩, ⟨"s2", [1, 2], some 2⟩,
      ⟨"s3", [1, 2], some 2⟩, ⟨"s4", [1, 2], some 2⟩, ⟨"s5", [1, 2], some 2⟩,
      ⟨"s6", [1, 2], some 2⟩, ⟨"s7", [1, 2], some 2⟩, ⟨"s8", [1, 2], some 2⟩,
      ⟨"s9", [1, 2], some 2⟩, ⟨"s10", [1, 2], some 2⟩] 50) 10 =
    getGainers [⟨"s1", [1, 2], some 2⟩, ⟨"s2", [1, 2], some 2⟩,
      ⟨"s3", [1, 2], some 2⟩, ⟨"s4", [1, 2], some 2⟩, ⟨"s5", [1, 2], some 2⟩,
      ⟨"s6", [1, 2], some 2⟩, ⟨"s7", [1, 2], some 2⟩, ⟨"s8", [1, 2], some 2⟩,
      ⟨"s9", [1, 2], some 2⟩, ⟨"s10", [1, 2], some 2⟩] 10 ∧
    ([⟨"s1", [1, 2], some 2⟩, ⟨"s2", [1, 2], some 2⟩,
      ⟨"s3", [1, 2], some 2⟩, ⟨"s4", [1, 2], some 2⟩, ⟨"s5", [1, 2], some 2⟩,
      ⟨"s6", [1, 2], some 2⟩, ⟨"s7", [1, 2], some 2⟩, ⟨"s8", [1, 2], some 2⟩,
      ⟨"s9", [1, 2], some 2⟩, ⟨"s10", [1, 2], some 2⟩] : List AssetQuote).map
        attachChangeV1 =
      (([⟨"s1", [1, 2], some 2⟩, ⟨"s2", [1, 2], some 2⟩,
       ⟨"s3", [1, 2], some 2⟩, ⟨"s4", [1, 2], some 2⟩, ⟨"s5", [1, 2], some 2⟩,
       ⟨"s6", [1, 2], some 2⟩, ⟨"s7", [1, 2], some 2⟩, ⟨"s8", [1, 2], some 2⟩,
       ⟨"s9", [1, 2], some 2⟩, ⟨"s10", [1, 2], some 2⟩] : List AssetQuote).map
        attachChange).map someRanked := by
  have hcc : calculateChange [1, 2] = 100 := by norm_num [calculateChange]
  have h : 10 ≤ (([⟨"s1", [1, 2], some 2⟩, ⟨"s2", [1, 2], some 2⟩, ⟨"s3", [1, 2], some 2⟩,
      ⟨"s4", [1, 2], some 2⟩, ⟨"s5", [1, 2], some 2⟩, ⟨"s6", [1, 2], some 2⟩,
      ⟨"s7", [1, 2], some 2⟩, ⟨"s8", [1, 2], some 2⟩, ⟨"s9", [1, 2], some 2⟩,
      ⟨"s10", [1, 2], some 2⟩] : List AssetQuote).filter
        fun d => decide (0 < calculateChange d.prices)).length := by
    simp [List.filter, hcc]
  exact ⟨h, (gainers_topk_stable _ h).1, (gainers_topk_stable _ h).2 (by decide)⟩

/-- C10 (counterexample): the claim also covers src/index.js's
`getGainers`/`getLosers`, which attach the *unguarded* metric: a `[0, 0]`
series attaches a non-finite `pct_change` (`NaN`, modelled as `none`) while
a normal series attaches a finite value.  With such mixed data every `NaN`
comparator result is coerced to a tie, the comparator is inconsistent, and
the JS sort order is implementation-defined — so "sorted descending by
pct_change" is not guaranteed for that variant, and the value sorted on is
not the guarded one this file's `getGainers` uses. -/
theorem ranking_v1_nan_cex :
    (attachChangeV1 ⟨"a", [0, 0], some 0⟩).pct_change = none ∧
    (attachChangeV1 ⟨"b", [1, 2], some 2⟩).pct_change = some 100 := by
  constructor
  · decide
  · norm_num [attachChangeV1, calculateChangeV1]

/-- C10 (amended): the cached variant's `getGainers`/`getLosers`
(src/unnamed/part_000) apply no sign filter — they only attach the metric,
sort (descending resp. ascending by `pct_change`), and truncate to `limit`.
Whenever the input fits within the limit, the output is a permutation of the
full attached input (nothing is dropped, whatever the sign of the changes),
and in general the output has `min limit (length input)` entries and is
sorted.  The same holds for src/index.js on every input whose series all
have fewer than 2 points or a nonzero first price: there its attached
records coincide with the cached variant's (last conjunct); on other inputs
its `pct_change` is non-finite and the sort order is
implementation-defined. -/
theorem ranking_no_sign_filter :
    (∀ (data : List AssetQuote) (limit : ℕ),
      (getGainers data limit).length = min limit data.length ∧
      (getLosers data limit).length = min limit data.length) ∧
    (∀ (data : List AssetQuote) (limit : ℕ), data.length ≤ limit →
      (getGainers data limit).Perm (data.map attachChange) ∧
      (getLosers data limit).Perm (data.map attachChange)) ∧
    (∀ (data : List AssetQuote) (limit : ℕ),
      List.Sorted gainersRel (getGainers data limit) ∧
      List.Sorted losersRel (getLosers data limit)) ∧
    (∀ data : List AssetQuote,
      (∀ d ∈ data, d.prices.length < 2 ∨ d.prices.headI ≠ 0) →
      data.map attachChangeV1 = (data.map attachChange).map someRanked) := by
  refine ⟨?_, ?_, ?_, ?_⟩
  · intro data limit
    constructor
    · rw [getGainers, List.length_take,
        (List.perm_insertionSort gainersRel _).length_eq, List.length_map]
    · rw [getLosers, List.length_take,
        (List.perm_insertionSort losersRel _).length_eq, List.length_map]
  · intro data limit h
    constructor
    · rw [getGainers, List.take_of_length_le]
      · exact List.perm_insertionSort gainersRel _
      · rw [(List.perm_insertionSort gainersRel _).length_eq, List.length_map]
        exact h
    · rw [getLosers, List.take_of_length_le]
      · exact List.perm_insertionSort losersRel _
      · rw [(List.perm_insertionSort losersRel _).length_eq, List.length_map]
        exact h
  · intro data limit
    exact ⟨List.Pairwise.sublist (List.take_sublist _ _)
        (List.sorted_insertionSort gainersRel _),
      List.Pairwise.sublist (List.take_sublist _ _)
        (List.sorted_insertionSort losersRel _)⟩
  · intro data hfin
    rw [List.map_map]
    exact List.map_congr_left fun d hd => attachChangeV1_eq_of_finite d (hfin d hd)

/-- C10 (witness): the theorem on a concrete two-element list containing a
negative-change and a zero-change entry — both are kept — discharging also
the finite-domain hypothesis of the src/index.js conjunct. -/
theorem ranking_no_sign_filter_witness :
    ((getGainers [⟨"a", [4, 1], some 1⟩, ⟨"b", [3, 3], some 3⟩] 5).length =
      min 5 ([⟨"a", [4, 1], some 1⟩, ⟨"b", [3, 3], some 3⟩] : List AssetQuote).length ∧
     (getLosers [⟨"a", [4, 1], some 1⟩, ⟨"b", [3, 3], some 3⟩] 5).length =
      min 5 ([⟨"a", [4, 1], some 1⟩, ⟨"b", [3, 3], some 3⟩] : List AssetQuote).length) ∧
    ((getGainers [⟨"a", [4, 1], some 1⟩, ⟨"b", [3, 3], some 3⟩] 5).Perm
      (([⟨"a", [4, 1], some 1⟩, ⟨"b", [3, 3], some 3⟩] : List AssetQuote).map attachChange) ∧
     (getLosers [⟨"a", [4, 1], some 1⟩, ⟨"b", [3, 3], some 3⟩] 5).Perm
      (([⟨"a", [4, 1], some 1⟩, ⟨"b", [3, 3], some 3⟩] : List AssetQuote).map attachChange)) ∧
    ([⟨"a", [4, 1], some 1⟩, ⟨"b", [3, 3], some 3⟩] : List AssetQuote).map attachChangeV1 =
      (([⟨"a", [4, 1], some 1⟩, ⟨"b", [3, 3], some 3⟩] : List AssetQuote).map
        attachChange).map someRanked :=
  ⟨ranking_no_sign_filter.1 [⟨"a", [4, 1], some 1⟩, ⟨"b", [3, 3], some 3⟩] 5,
   ranking_no_sign_filter.2.1 [⟨"a", [4, 1], some 1⟩, ⟨"b", [3, 3], some 3⟩] 5
     (by norm_num),
   ranking_no_sign_filter.2.2.2 [⟨"a", [4, 1], some 1⟩, ⟨"b", [3, 3], some 3⟩]
     (by decide)⟩
